import Mathlib

/-!
Verification development for the ff-bookmark-search repository
(`src/bookmarks.py` and `src/app.py`): a shallow embedding of the
profile locator, the bookmark extractor, the vector-database
persistence layer and the pagination logic, together with theorems
settling the specification claims.
-/

namespace FFBS

/-! ## Profile locator (`src/bookmarks.py`, `find_default_firefox_profile`)

A candidate profile directory is modelled by what the scan loop can
observe about it: whether `places.sqlite` exists, its size in bytes,
and the outcome of the `moz_bookmarks` table check
(`none` models an `sqlite3.Error` raised while opening or querying). -/

structure Candidate where
  name : String
  placesExists : Bool
  size : Nat
  tableCheck : Option Bool
deriving DecidableEq, Repr

/-- `100 * 1024`: the minimum size from line 34 of `src/bookmarks.py`. -/
def minSizeBytes : Nat := 100 * 1024

/-- One iteration of the scan loop (lines 28-49 of `src/bookmarks.py`).
The accumulator is `(best_profile, best_size)`, initially `(none, 0)`. -/
def scanStep (acc : Option Candidate × Nat) (c : Candidate) :
    Option Candidate × Nat :=
  if c.placesExists = false then acc
  else if c.size < minSizeBytes then acc
  else
    match c.tableCheck with
    | none => acc
    | some has =>
      if has = true ∧ acc.2 < c.size then (some c, c.size) else acc

/-- The whole scan over the profiles directory. -/
def scanProfiles (cs : List Candidate) : Option Candidate × Nat :=
  cs.foldl scanStep (none, 0)

/-- Error outcomes of `find_default_firefox_profile`.  In the Python
source, `unsupportedOS` and `noValidProfile` are raised as
`RuntimeError`, and `profilesDirNotFound` as `FileNotFoundError`. -/
inductive LocatorError where
  | unsupportedOS
  | profilesDirNotFound
  | noValidProfile
deriving DecidableEq, Repr

/-- The Python exception class of each locator error. -/
inductive PyClass where
  | runtimeError
  | fileNotFoundError
deriving DecidableEq, Repr

def LocatorError.pyClass : LocatorError → PyClass
  | .unsupportedOS => .runtimeError
  | .profilesDirNotFound => .fileNotFoundError
  | .noValidProfile => .runtimeError

/-- A NotFound-class Python exception (`FileNotFoundError`). -/
def LocatorError.isNotFoundClass (e : LocatorError) : Bool :=
  e.pyClass = PyClass.fileNotFoundError

/-- The filesystem facts `find_default_firefox_profile` inspects. -/
structure ProfilesEnv where
  osSupported : Bool
  profilesDirExists : Bool
  profiles : List Candidate

/-- `find_default_firefox_profile` (lines 9-54 of `src/bookmarks.py`). -/
def find_default_firefox_profile (env : ProfilesEnv) :
    Except LocatorError Candidate :=
  if !env.osSupported then .error .unsupportedOS
  else if !env.profilesDirExists then .error .profilesDirNotFound
  else
    match (scanProfiles env.profiles).1 with
    | none => .error .noValidProfile
    | some p => .ok p

/-- A candidate qualifies when `places.sqlite` exists, is at least the
minimum size, and the `moz_bookmarks` check succeeded positively. -/
def qualifies (c : Candidate) : Prop :=
  c.placesExists = true ∧ minSizeBytes ≤ c.size ∧ c.tableCheck = some true

instance (c : Candidate) : Decidable (qualifies c) := by
  unfold qualifies; infer_instance

/-! Invariants of the scan accumulator. -/

/-- The accumulator is well formed: empty with size 0, or holding a
qualifying candidate together with its own size. -/
def accOK (acc : Option Candidate × Nat) : Prop :=
  match acc.1 with
  | none => acc.2 = 0
  | some b => qualifies b ∧ acc.2 = b.size

lemma scanStep_not_qualifies {c : Candidate} (acc : Option Candidate × Nat)
    (h : ¬ qualifies c) : scanStep acc c = acc := by
  unfold scanStep qualifies at *
  rcases hx : c.placesExists with _ | _
  · simp [hx]
  · rcases ht : c.tableCheck with _ | b
    · by_cases hs : c.size < minSizeBytes <;> simp [hx, hs, ht]
    · by_cases hs : c.size < minSizeBytes
      · simp [hx, hs]
      · rcases b with _ | _
        · simp [hx, hs, ht]
        · exact absurd ⟨hx, Nat.le_of_not_lt hs, ht⟩ h

lemma scanStep_qualifies {c : Candidate} (acc : Option Candidate × Nat)
    (hq : qualifies c) :
    scanStep acc c = if acc.2 < c.size then (some c, c.size) else acc := by
  obtain ⟨h1, h2, h3⟩ := hq
  unfold scanStep
  rw [h1, h3]
  rw [if_neg (by simp), if_neg (by omega)]
  show (if true = true ∧ acc.2 < c.size then (some c, c.size) else acc) = _
  simp only [eq_self_iff_true, true_and]

lemma scanStep_accOK {acc : Option Candidate × Nat} (c : Candidate)
    (h : accOK acc) : accOK (scanStep acc c) := by
  by_cases hq : qualifies c
  · rw [scanStep_qualifies acc hq]
    by_cases hlt : acc.2 < c.size
    · rw [if_pos hlt]; exact ⟨hq, rfl⟩
    · rw [if_neg hlt]; exact h
  · rw [scanStep_not_qualifies acc hq]; exact h

lemma scanFold_accOK (cs : List Candidate) (acc : Option Candidate × Nat)
    (h : accOK acc) : accOK (cs.foldl scanStep acc) := by
  induction cs generalizing acc with
  | nil => exact h
  | cons c cs ih => exact ih _ (scanStep_accOK c h)

lemma scanStep_mono (acc : Option Candidate × Nat) (c : Candidate) :
    acc.2 ≤ (scanStep acc c).2 := by
  by_cases hq : qualifies c
  · rw [scanStep_qualifies acc hq]
    by_cases hlt : acc.2 < c.size
    · rw [if_pos hlt]; exact Nat.le_of_lt hlt
    · rw [if_neg hlt]
  · rw [scanStep_not_qualifies acc hq]

lemma scanFold_mono (cs : List Candidate) (acc : Option Candidate × Nat) :
    acc.2 ≤ (cs.foldl scanStep acc).2 := by
  induction cs generalizing acc with
  | nil => exact Nat.le_refl _
  | cons c cs ih => exact Nat.le_trans (scanStep_mono acc c) (ih _)

lemma scanStep_qual_le (acc : Option Candidate × Nat) {c : Candidate}
    (hq : qualifies c) : c.size ≤ (scanStep acc c).2 := by
  rw [scanStep_qualifies acc hq]
  by_cases hlt : acc.2 < c.size
  · rw [if_pos hlt]
  · rw [if_neg hlt]; omega

lemma scanFold_qual_le {cs : List Candidate} {c : Candidate}
    (acc : Option Candidate × Nat) (hc : c ∈ cs) (hq : qualifies c) :
    c.size ≤ (cs.foldl scanStep acc).2 := by
  induction cs generalizing acc with
  | nil => cases hc
  | cons d ds ih =>
    rcases List.mem_cons.mp hc with hc | hc
    · subst hc
      exact Nat.le_trans (scanStep_qual_le acc hq) (scanFold_mono ds _)
    · exact ih _ hc

lemma scanFold_no_qual {cs : List Candidate}
    (h : ∀ c ∈ cs, ¬ qualifies c) (acc : Option Candidate × Nat) :
    cs.foldl scanStep acc = acc := by
  induction cs generalizing acc with
  | nil => rfl
  | cons c cs ih =>
    rw [List.foldl_cons, scanStep_not_qualifies acc (h c (by simp)),
      ih (fun d hd => h d (by simp [hd]))]

lemma scanStep_mem (acc : Option Candidate × Nat) (c : Candidate) :
    (scanStep acc c).1 = acc.1 ∨ (scanStep acc c).1 = some c := by
  by_cases hq : qualifies c
  · rw [scanStep_qualifies acc hq]
    by_cases hlt : acc.2 < c.size
    · rw [if_pos hlt]; exact Or.inr rfl
    · rw [if_neg hlt]; exact Or.inl rfl
  · rw [scanStep_not_qualifies acc hq]; exact Or.inl rfl

lemma scanFold_mem {cs : List Candidate} {p : Candidate}
    (acc : Option Candidate × Nat) (h : (cs.foldl scanStep acc).1 = some p) :
    acc.1 = some p ∨ p ∈ cs := by
  induction cs generalizing acc with
  | nil => exact Or.inl h
  | cons c ds ih =>
    rw [List.foldl_cons] at h
    rcases ih _ h with h2 | h2
    · rcases scanStep_mem acc c with h3 | h3
      · exact Or.inl (h3 ▸ h2)
      · rw [h2] at h3
        rcases Option.some_inj.mp h3 with rfl
        exact Or.inr (by simp)
    · exact Or.inr (by simp [h2])

lemma scanProfiles_some {cs : List Candidate} {p : Candidate}
    (h : (scanProfiles cs).1 = some p) :
    qualifies p ∧ ∀ c ∈ cs, qualifies c → c.size ≤ p.size := by
  have hOK := scanFold_accOK cs (none, 0) rfl
  unfold scanProfiles at h
  have hOK2 : qualifies p ∧ (cs.foldl scanStep (none, 0)).2 = p.size := by
    unfold accOK at hOK
    rw [h] at hOK
    exact hOK
  refine ⟨hOK2.1, fun c hc hq => ?_⟩
  have hle := scanFold_qual_le (none, 0) hc hq
  rw [hOK2.2] at hle
  exact hle

lemma find_ok_inv {env : ProfilesEnv} {p : Candidate}
    (h : find_default_firefox_profile env = .ok p) :
    (scanProfiles env.profiles).1 = some p := by
  unfold find_default_firefox_profile at h
  rcases hos : env.osSupported with _ | _ <;> rw [hos] at h
  · simp only [Bool.not_false, if_true] at h
    cases h
  · simp only [Bool.not_true, if_false] at h
    rcases hd : env.profilesDirExists with _ | _ <;> rw [hd] at h
    · simp only [Bool.not_false, if_true] at h
      cases h
    · simp only [Bool.not_true, if_false] at h
      rcases hscan : (scanProfiles env.profiles).1 with _ | q <;>
        rw [hscan] at h
      · cases h
      · cases h
        rfl

/-! ## Claim theorems about the profile locator -/

/-- C1: whenever `find_default_firefox_profile` succeeds, the returned
profile is one of the scanned candidates, it exists, is at least the
100 KB minimum size, its `moz_bookmarks` check succeeded, and its
`places.sqlite` size is largest among all qualifying candidates;
candidates below the threshold or lacking the table are never the
selected one. -/
theorem C1_locator_selects_largest_qualifying (env : ProfilesEnv)
    (p : Candidate) (h : find_default_firefox_profile env = .ok p) :
    p ∈ env.profiles ∧
      p.placesExists = true ∧
      minSizeBytes ≤ p.size ∧
      p.tableCheck = some true ∧
      ∀ c ∈ env.profiles, qualifies c → c.size ≤ p.size := by
  have hscan := find_ok_inv h
  have hmem := scanFold_mem (none, 0) hscan
  have hq := scanProfiles_some hscan
  exact ⟨hmem.resolve_left (by simp), hq.1.1, hq.1.2.1, hq.1.2.2, hq.2⟩

def candTinyW : Candidate := ⟨"tiny", true, 1024, some true⟩
def candErrW : Candidate := ⟨"locked", true, 900000, none⟩
def candMidW : Candidate := ⟨"mid", true, 200000, some true⟩
def candBigW : Candidate := ⟨"big", true, 500000, some true⟩
def candNoTableW : Candidate := ⟨"notable", true, 800000, some false⟩

def envW : ProfilesEnv :=
  ⟨true, true, [candTinyW, candErrW, candMidW, candBigW, candNoTableW]⟩

/-- Witness for C1 at a concrete profiles directory: the candidate of
size 500000 with a positive table check is selected and is maximal. -/
theorem C1_witness :
    candBigW ∈ envW.profiles ∧
      candBigW.placesExists = true ∧
      minSizeBytes ≤ candBigW.size ∧
      candBigW.tableCheck = some true ∧
      ∀ c ∈ envW.profiles, qualifies c → c.size ≤ candBigW.size :=
  C1_locator_selects_largest_qualifying envW candBigW (by rfl)

def envNoQualW : ProfilesEnv := ⟨true, true, [candTinyW, candNoTableW]⟩

/-- C7 counterexample: when the profiles directory exists but no
qualifying database does, the locator raises `RuntimeError`
(line 52 of `src/bookmarks.py`), which is not a NotFound-class
exception — contradicting the claim that every such case fails with a
NotFound-class error. -/
theorem C7_counterexample :
    find_default_firefox_profile envNoQualW = .error .noValidProfile ∧
      LocatorError.noValidProfile.isNotFoundClass = false :=
  ⟨rfl, rfl⟩

/-- C7 amended: on a supported OS, a missing profiles directory fails
with `FileNotFoundError`, while a present directory with no qualifying
database fails with `RuntimeError`; these are the only outcomes in
those cases (the code has no manifest-parsing path at all). -/
theorem C7_amended_error_classes (env : ProfilesEnv)
    (hos : env.osSupported = true) :
    (env.profilesDirExists = false →
      find_default_firefox_profile env = .error .profilesDirNotFound ∧
        LocatorError.profilesDirNotFound.pyClass = PyClass.fileNotFoundError) ∧
    (env.profilesDirExists = true → (∀ c ∈ env.profiles, ¬ qualifies c) →
      find_default_firefox_profile env = .error .noValidProfile ∧
        LocatorError.noValidProfile.pyClass = PyClass.runtimeError) := by
  constructor
  · intro hd
    constructor
    · unfold find_default_firefox_profile
      rw [hos, hd]
      rfl
    · rfl
  · intro hd hnq
    constructor
    · unfold find_default_firefox_profile
      rw [hos, hd]
      have : scanProfiles env.profiles = (none, 0) :=
        scanFold_no_qual hnq (none, 0)
      simp only [Bool.not_true, if_false, this]
      rfl
    · rfl

def envNoDirW : ProfilesEnv := ⟨true, false, []⟩

/-- Witness for the amended C7 at concrete environments. -/
theorem C7_witness :
    (find_default_firefox_profile envNoDirW = .error .profilesDirNotFound ∧
      LocatorError.profilesDirNotFound.pyClass = PyClass.fileNotFoundError) ∧
    (find_default_firefox_profile envNoQualW = .error .noValidProfile ∧
      LocatorError.noValidProfile.pyClass = PyClass.runtimeError) :=
  ⟨(C7_amended_error_classes envNoDirW rfl).1 rfl,
    (C7_amended_error_classes envNoQualW rfl).2 rfl (by decide)⟩

/-- C10: a candidate whose `moz_bookmarks` check raises an
`sqlite3.Error` (modelled by `tableCheck = none`, the `except` branch
at lines 44-45 of `src/bookmarks.py`) is skipped: the locator behaves
exactly as if that candidate were absent, so the error never
propagates and cannot prevent selection of another qualifying
profile. -/
theorem C10_sqlite_error_skipped (env : ProfilesEnv)
    (cs1 cs2 : List Candidate) (c : Candidate)
    (hc : c.tableCheck = none) (hp : env.profiles = cs1 ++ c :: cs2) :
    find_default_firefox_profile env =
      find_default_firefox_profile
        ⟨env.osSupported, env.profilesDirExists, cs1 ++ cs2⟩ := by
  have hnq : ¬ qualifies c := by
    rintro ⟨-, -, h3⟩
    rw [hc] at h3
    cases h3
  have hfold : scanProfiles (cs1 ++ c :: cs2) = scanProfiles (cs1 ++ cs2) := by
    unfold scanProfiles
    rw [List.foldl_append, List.foldl_append, List.foldl_cons,
      scanStep_not_qualifies _ hnq]
  unfold find_default_firefox_profile
  simp only [hp, hfold]

def envErrW : ProfilesEnv := ⟨true, true, [candErrW, candMidW]⟩

/-- Witness for C10: dropping the erroring candidate leaves the
locator's outcome unchanged, and the qualifying profile next to it is
still selected. -/
theorem C10_witness :
    find_default_firefox_profile envErrW =
      find_default_firefox_profile ⟨true, true, [] ++ [candMidW]⟩ :=
  C10_sqlite_error_skipped envErrW [] [candMidW] candErrW rfl rfl

/-! ## Vector database persistence and app state (`src/app.py`)

Embedding vectors are modelled as integer lists (the claims under
verification are structural — lengths, identity, positional
correspondence — and do not depend on floating-point arithmetic). -/

abbrev Scalar := Int

abbrev Embedding := List Scalar

/-- A faiss `IndexFlatL2`: its dimension and the stored vectors. -/
structure FaissIndex where
  dim : Nat
  vecs : List Embedding
deriving DecidableEq, Repr

/-- `faiss.IndexFlatL2(d)`: a fresh flat index of dimension `d`. -/
def IndexFlatL2 (d : Nat) : FaissIndex := ⟨d, []⟩

/-- `index.add(embeddings)`: appends the vectors to the index. -/
def FaissIndex.add (ix : FaissIndex) (es : List Embedding) : FaissIndex :=
  ⟨ix.dim, ix.vecs ++ es⟩

/-- `embeddings.shape[1]` for the matrix of encoded titles. -/
def embedDim (es : List Embedding) : Nat :=
  match es with
  | [] => 0
  | e :: _ => e.length

/-- Contents of the `data` directory: `index.faiss`, `meta.pkl`
(pickled `{titles, urls}`), `embeddings.npy`; `none` means the file is
absent. -/
structure FileSystem where
  dataDirExists : Bool
  indexFile : Option FaissIndex
  metaFile : Option (List String × List String)
  embedFile : Option (List Embedding)
deriving DecidableEq, Repr

/-- `save_vector_db` (lines 17-22 of `src/app.py`): creates the data
directory and writes all three files. -/
def save_vector_db (fs : FileSystem) (index : FaissIndex)
    (titles urls : List String) (embeddings : List Embedding) :
    FileSystem :=
  { dataDirExists := true
    indexFile := some index
    metaFile := some (titles, urls)
    embedFile := some embeddings }

/-- `load_vector_db` (lines 24-31 of `src/app.py`): returns the
none-tuple when any of the three files is missing, otherwise reads all
three back.  No validation beyond file existence is performed. -/
def load_vector_db (fs : FileSystem) :
    Option (FaissIndex × List String × List String × List Embedding) :=
  match fs.indexFile, fs.metaFile, fs.embedFile with
  | some index, some meta, some embeddings =>
    some (index, meta.1, meta.2, embeddings)
  | _, _, _ => none

/-- A bookmark record as returned by `get_firefox_bookmarks`. -/
structure Bookmark where
  id : Int
  title : String
  url : String
deriving DecidableEq, Repr

/-- The cold branch of `init_index` (lines 42-51 of `src/app.py`):
extract bookmark titles and urls, encode all titles, build a flat L2
index over the embedding matrix, persist everything, and return the
artifacts together with the written filesystem state. -/
def cold_build (bookmarks : List Bookmark)
    (encode : String → Embedding) :
    (FaissIndex × List String × List String × List Embedding) ×
      FileSystem :=
  let titles := bookmarks.map Bookmark.title
  let urls := bookmarks.map Bookmark.url
  let embeddings := titles.map encode
  let index := (IndexFlatL2 (embedDim embeddings)).add embeddings
  ((index, titles, urls, embeddings),
    save_vector_db ⟨false, none, none, none⟩ index titles urls embeddings)

/-- Total number of scalar entries in the embeddings array
(`embeddings.size` in numpy terms). -/
def numElements (es : List Embedding) : Nat := (es.map List.length).sum

/-- A Python exception escaping `init_index`. -/
inductive PyError where
  | valueError
deriving DecidableEq, Repr

/-- `init_index` (lines 33-51 of `src/app.py`).  The warm check at
line 39 is `if None not in (index, titles, urls, embeddings):`.  When
`load_vector_db` returned the none-tuple, the membership test
short-circuits on the identity `None is index` and the cold branch
runs.  When it returned real objects, the test eventually evaluates
`None == embeddings`: numpy compares elementwise and yields a boolean
array, whose coercion to `bool` raises
`ValueError: truth value of an array with more than one element is
ambiguous` whenever the array has more than one element; an array
with at most one element coerces to a falsy value and the warm branch
returns the loaded tuple. -/
def init_index (fs : FileSystem) (bookmarks : List Bookmark)
    (encode : String → Embedding) :
    Except PyError
      ((FaissIndex × List String × List String × List Embedding) ×
        FileSystem) :=
  match load_vector_db fs with
  | some r =>
    if 1 < numElements r.2.2.2 then .error .valueError
    else .ok (r, fs)
  | none => .ok (cold_build bookmarks encode)

/-- Process state of the app: the data directory, the
`st.session_state.results_shown` entry, and the `st.cache_resource`
memo of `init_index`. -/
structure AppState where
  fs : FileSystem
  resultsShown : Option Nat
  cacheResource :
    Option (FaissIndex × List String × List String × List Embedding)

/-- The empty filesystem: the data directory was removed with all its
files. -/
def emptyFS : FileSystem := ⟨false, none, none, none⟩

/-- The rebuild button handler (lines 145-149 of `src/app.py`):
`shutil.rmtree(DATA_DIR)`, `st.session_state.clear()`,
`st.cache_resource.clear()`. -/
def rebuild_database (s : AppState) : AppState :=
  ⟨emptyFS, none, none⟩

/-- `init_index` as seen through the `st.cache_resource` decorator:
the cached tuple is returned if present, otherwise `init_index` runs
and its result is cached; an exception escapes uncached. -/
def app_init (s : AppState) (bookmarks : List Bookmark)
    (encode : String → Embedding) :
    Except PyError
      ((FaissIndex × List String × List String × List Embedding) ×
        AppState) :=
  match s.cacheResource with
  | some r => .ok (r, s)
  | none =>
    match init_index s.fs bookmarks encode with
    | .error e => .error e
    | .ok (r, fs2) => .ok (r, ⟨fs2, s.resultsShown, some r⟩)

/-! ## Claim theorems about persistence -/

/-- C2: persisting an index, titles, urls and embeddings with
`save_vector_db` and loading with `load_vector_db` returns exactly the
original objects, hence with the same lengths and the same element at
every position. -/
theorem C2_save_load_roundtrip (fs : FileSystem) (index : FaissIndex)
    (titles urls : List String) (embeddings : List Embedding) :
    load_vector_db (save_vector_db fs index titles urls embeddings) =
      some (index, titles, urls, embeddings) := rfl

/-- A data directory whose meta file holds one title but zero urls and
whose embeddings file is empty: all three files exist but the lengths
disagree. -/
def mismatchedFS : FileSystem :=
  { dataDirExists := true
    indexFile := some (IndexFlatL2 3)
    metaFile := some (["t"], [])
    embedFile := some [] }

def encode0 : String → Embedding := fun _ => []

/-- C3 counterexample: with one title, zero urls and zero embeddings
on disk, the lengths disagree, yet `load_vector_db` still returns the
tuple and `init_index` takes the warm path (the empty comparison
array coerces to a falsy value, so the line-39 check passes) instead
of falling back to a cold build — the code never checks length
agreement. -/
theorem C3_counterexample :
    load_vector_db mismatchedFS = some (IndexFlatL2 3, ["t"], [], []) ∧
      (["t"] : List String).length ≠ ([] : List String).length ∧
      init_index mismatchedFS [] encode0 =
        .ok ((IndexFlatL2 3, ["t"], [], []), mismatchedFS) :=
  ⟨rfl, by decide, rfl⟩

/-- C3 amended: the cache is treated as present exactly when the index
file, the metadata file and the embeddings file all exist; length
agreement is never validated.  When any file is missing,
`load_vector_db` reports the cache as absent and `init_index` performs
a cold build. -/
theorem C3_amended_presence (fs : FileSystem) (bookmarks : List Bookmark)
    (encode : String → Embedding) :
    ((load_vector_db fs).isSome ↔
      (fs.indexFile.isSome ∧ fs.metaFile.isSome ∧ fs.embedFile.isSome)) ∧
    (load_vector_db fs = none →
      init_index fs bookmarks encode = .ok (cold_build bookmarks encode)) := by
  constructor
  · unfold load_vector_db
    rcases fs.indexFile with _ | ix <;>
      rcases fs.metaFile with _ | m <;>
        rcases fs.embedFile with _ | e <;> simp
  · intro h
    unfold init_index
    rw [h]

/-- Witness for the amended C3: with every file missing, the cache is
absent and initialization is a cold build. -/
theorem C3_amended_witness :
    ((load_vector_db emptyFS).isSome ↔
      (emptyFS.indexFile.isSome ∧ emptyFS.metaFile.isSome ∧
        emptyFS.embedFile.isSome)) ∧
    init_index emptyFS [] encode0 = .ok (cold_build [] encode0) :=
  ⟨(C3_amended_presence emptyFS [] encode0).1,
    (C3_amended_presence emptyFS [] encode0).2 rfl⟩

/-- C6: after the rebuild handler runs, the data directory and all
three persisted files are gone and the session state and resource
cache are cleared; the next initialization therefore takes the cold
path — it re-extracts, re-embeds, rebuilds the index and re-persists
it. -/
theorem C6_rebuild_forces_cold_build (s : AppState)
    (bookmarks : List Bookmark) (encode : String → Embedding) :
    (rebuild_database s).fs.dataDirExists = false ∧
    (rebuild_database s).fs.indexFile = none ∧
    (rebuild_database s).fs.metaFile = none ∧
    (rebuild_database s).fs.embedFile = none ∧
    (rebuild_database s).resultsShown = none ∧
    (rebuild_database s).cacheResource = none ∧
    app_init (rebuild_database s) bookmarks encode =
      .ok ((cold_build bookmarks encode).1,
        ⟨(cold_build bookmarks encode).2, none,
          some (cold_build bookmarks encode).1⟩) :=
  ⟨rfl, rfl, rfl, rfl, rfl, rfl, rfl⟩

/-! ## Pagination (`src/app.py`, lines 107-130) -/

/-- The fixed page increment: both the prefetch margin at line 109 and
the Load More increment at line 129 are the literal `10`. -/
def pageSize : Nat := 10

/-- Number of rows returned by `faiss` `Index.search(x, k)` for one
query: the result arrays have shape `(nq, k)`, padded with `-1`
entries when the index holds fewer than `k` vectors, so `len(I[0])`
is always `k`. -/
def faissSearchLen (k : Nat) : Nat := k

/-- One execution of the search block for a given
`st.session_state.results_shown` value: the prefetch size
(line 109), the number of fetched candidates (line 112) and the
number of results displayed (line 115). -/
structure SearchRun where
  resultsToFetch : Nat
  fetched : Nat
  countToShow : Nat
deriving DecidableEq, Repr

def runSearch (resultsShown : Nat) : SearchRun :=
  let resultsToFetch := resultsShown + pageSize
  let lenI := faissSearchLen resultsToFetch
  ⟨resultsToFetch, lenI, min lenI resultsShown⟩

/-- The Load More handler (line 129): `results_shown += 10`. -/
def loadMore (resultsShown : Nat) : Nat := resultsShown + pageSize

/-- C5: pressing Load More twice without changing the query raises the
displayed count by exactly 10 each time; the displayed count never
exceeds the number of fetched candidates, and the Load More button is
indeed offered (displayed count is strictly below the fetched
count). -/
theorem C5_pagination (s : Nat) :
    (runSearch (loadMore s)).countToShow =
        (runSearch s).countToShow + 10 ∧
    (runSearch (loadMore (loadMore s))).countToShow =
        (runSearch (loadMore s)).countToShow + 10 ∧
    (∀ s2 : Nat, (runSearch s2).countToShow ≤ (runSearch s2).fetched) ∧
    (runSearch s).countToShow < (runSearch s).fetched := by
  refine ⟨?_, ?_, fun s2 => ?_, ?_⟩ <;>
    simp [runSearch, loadMore, faissSearchLen, pageSize]

/-! ## Positional correspondence invariant (C9) -/

/-- The positional-correspondence invariant: titles, urls and
embeddings have equal lengths, one source bookmark per position, each
embedding is the encoding of the title at the same position, and the
url at each position is the url of the bookmark whose title stands at
that position. -/
def corresponds (titles urls : List String)
    (embeddings : List Embedding) (src : List Bookmark)
    (encode : String → Embedding) : Prop :=
  titles.length = urls.length ∧
  embeddings.length = titles.length ∧
  src.length = titles.length ∧
  ∀ i, i < titles.length →
    embeddings.get? i = (titles.get? i).map encode ∧
    (src.get? i).map Bookmark.title = titles.get? i ∧
    (src.get? i).map Bookmark.url = urls.get? i

lemma corresponds_cold (bm : List Bookmark)
    (encode : String → Embedding) :
    corresponds (bm.map Bookmark.title) (bm.map Bookmark.url)
      ((bm.map Bookmark.title).map encode) bm encode := by
  refine ⟨by simp, by simp, by simp, fun i hi => ?_⟩
  refine ⟨?_, ?_, ?_⟩ <;> simp [List.get?_map]

/-- Python list indexing with a (possibly negative) integer index, as
a resolved non-negative position; `none` models an `IndexError`. -/
def pyResolve (len : Nat) (i : Int) : Option Nat :=
  if 0 ≤ i then (if i.toNat < len then some i.toNat else none)
  else if i.natAbs ≤ len then some (len - i.natAbs) else none

/-- `xs[i]` on a Python list with integer (possibly negative) index. -/
def pyGet {α : Type} (xs : List α) (i : Int) : Option α :=
  (pyResolve xs.length i).bind (fun j => xs.get? j)

/-- One rendered search-result entry (lines 117-123 of `src/app.py`):
the displayed title, url and distance for the i-th shown row, where
`iRow` and `dRow` model `I[0]` and `D[0]`. -/
def renderedResult (titles urls : List String) (dRow : List Scalar)
    (iRow : List Int) (i : Nat) : Option (String × String × Scalar) :=
  (iRow.get? i).bind (fun idx =>
    (dRow.get? i).bind (fun d =>
      (pyGet titles idx).bind (fun t =>
        (pyGet urls idx).map (fun u => (t, u, d)))))

lemma pyGet_eq_some {α : Type} {xs : List α} {i : Int} {a : α}
    (h : pyGet xs i = some a) :
    ∃ j, pyResolve xs.length i = some j ∧ xs.get? j = some a := by
  unfold pyGet at h
  rcases hr : pyResolve xs.length i with _ | j <;> rw [hr] at h
  · cases h
  · exact ⟨j, rfl, h⟩

lemma corresponds_render {titles urls : List String}
    {embeddings : List Embedding} {src : List Bookmark}
    {encode : String → Embedding}
    (hc : corresponds titles urls embeddings src encode)
    (dRow : List Scalar) (iRow : List Int) (i : Nat)
    (t u : String) (d : Scalar)
    (hr : renderedResult titles urls dRow iRow i = some (t, u, d)) :
    ∃ j, (src.get? j).map Bookmark.title = some t ∧
      (src.get? j).map Bookmark.url = some u := by
  unfold renderedResult at hr
  rw [Option.bind_eq_some] at hr
  obtain ⟨idx, -, hr⟩ := hr
  rw [Option.bind_eq_some] at hr
  obtain ⟨dd, -, hr⟩ := hr
  rw [Option.bind_eq_some] at hr
  obtain ⟨t2, h3, hr⟩ := hr
  rw [Option.map_eq_some'] at hr
  obtain ⟨u2, h4, hr⟩ := hr
  injection hr with h5 hr2
  injection hr2 with h6 h7
  subst h5
  subst h6
  obtain ⟨j, hres, hjt⟩ := pyGet_eq_some h3
  obtain ⟨j2, hres2, hju⟩ := pyGet_eq_some h4
  rw [hc.1] at hres
  rw [hres] at hres2
  rcases Option.some_inj.mp hres2 with rfl
  have hjlt : j < titles.length := by
    rcases List.get?_eq_some.mp hjt with ⟨hh, -⟩
    exact hh
  obtain ⟨-, hbt, hbu⟩ := hc.2.2.2 j hjlt
  refine ⟨j, ?_, ?_⟩
  · rw [hbt, hjt]
  · rw [hbu, hju]

/-- The cold path of `init_index` does establish the positional
correspondence invariant with respect to the extracted bookmarks. -/
lemma cold_build_corresponds (bookmarks : List Bookmark)
    (encode : String → Embedding) :
    corresponds (cold_build bookmarks encode).1.2.1
      (cold_build bookmarks encode).1.2.2.1
      (cold_build bookmarks encode).1.2.2.2 bookmarks encode :=
  corresponds_cold bookmarks encode

def bookmarkW : Bookmark := ⟨7, "Rust Book", "https://doc.rust-lang.org/book/"⟩

/-- An embedding model producing two scalars per title (a real
sentence-transformer produces 384 per title). -/
def encodeTwoW : String → Embedding := fun _ => [1, 2]

/-- C9 (code bug): the claim states the intended invariant — the cold
path does establish it (`cold_build_corresponds`) — but warm
initialization cannot: the snapshot persisted by a cold build over
even a single bookmark holds an embeddings array with more than one
scalar entry, so the next initialization raises `ValueError` at the
line-39 membership test (`None == embeddings` compares elementwise)
instead of returning the persisted tuple. -/
theorem C9_warm_init_value_error :
    numElements (([bookmarkW].map Bookmark.title).map encodeTwoW) = 2 ∧
    init_index (cold_build [bookmarkW] encodeTwoW).2 [bookmarkW]
        encodeTwoW = .error .valueError ∧
    corresponds (cold_build [bookmarkW] encodeTwoW).1.2.1
      (cold_build [bookmarkW] encodeTwoW).1.2.2.1
      (cold_build [bookmarkW] encodeTwoW).1.2.2.2 [bookmarkW]
      encodeTwoW :=
  ⟨rfl, rfl, cold_build_corresponds [bookmarkW] encodeTwoW⟩

/-! ## Bookmark extraction (`src/bookmarks.py`,
`get_firefox_bookmarks_from_sqlite`) -/

/-- A row of the `moz_bookmarks` table (the columns the query
touches); `title` is nullable. -/
structure MozBookmarkRow where
  id : Int
  fk : Int
  title : Option String
deriving DecidableEq, Repr

/-- A row of the `moz_places` table (the columns the query touches). -/
structure MozPlaceRow where
  id : Int
  url : String
deriving DecidableEq, Repr

/-- An error raised by `cursor.execute`/`fetchall` on the fixed join
query.  CPython's sqlite3 raises `OperationalError` for a missing
table or column, but plain `DatabaseError` (of which
`OperationalError` is a subclass, not the other way round) for a
corrupted file. -/
inductive SqliteError where
  | operationalError
  | databaseError
deriving DecidableEq, Repr

/-- A snapshot `places.sqlite` database: how the fixed join query
fares against it (`none`: it executes) and the two joined tables. -/
structure PlacesDB where
  queryError : Option SqliteError
  mozBookmarks : List MozBookmarkRow
  mozPlaces : List MozPlaceRow
deriving DecidableEq, Repr

/-- The result rows of
`SELECT moz_bookmarks.id, moz_bookmarks.title, moz_places.url FROM
moz_bookmarks JOIN moz_places ON moz_bookmarks.fk = moz_places.id
WHERE moz_bookmarks.title IS NOT NULL` (lines 82-87 of
`src/bookmarks.py`). -/
def queryRows (db : PlacesDB) : List (Int × String × String) :=
  db.mozBookmarks.bind (fun b =>
    (db.mozPlaces.filter (fun p => p.id == b.fk)).filterMap (fun p =>
      b.title.map (fun t => (b.id, t, p.url))))

/-- Outcome of `get_firefox_bookmarks_from_sqlite`: success, the
`RuntimeError` raised by the `except sqlite3.OperationalError` clause
(lines 90-91 of `src/bookmarks.py`), or an sqlite error that the
clause does not catch and that propagates unconverted. -/
inductive ExtractOutcome where
  | ok (rows : List Bookmark)
  | runtimeError
  | uncaught (e : SqliteError)
deriving DecidableEq, Repr

/-- `get_firefox_bookmarks_from_sqlite` (lines 77-95 of
`src/bookmarks.py`).  Only `sqlite3.OperationalError` is converted to
`RuntimeError`; any other sqlite error propagates as raised.  The
second component records that the connection is closed on return on
every path (the `finally` block at lines 92-93 also runs while an
exception propagates). -/
def get_firefox_bookmarks_from_sqlite (db : PlacesDB) :
    ExtractOutcome × Bool :=
  match db.queryError with
  | none =>
    (.ok ((queryRows db).map (fun x => ⟨x.1, x.2.1, x.2.2⟩)), true)
  | some .operationalError => (.runtimeError, true)
  | some e => (.uncaught e, true)

lemma mem_queryRows {db : PlacesDB} {x : Int × String × String} :
    x ∈ queryRows db ↔
      ∃ b ∈ db.mozBookmarks, ∃ p ∈ db.mozPlaces,
        b.fk = p.id ∧ b.title = some x.2.1 ∧
        b.id = x.1 ∧ p.url = x.2.2 := by
  obtain ⟨x1, x2, x3⟩ := x
  unfold queryRows
  simp only [List.mem_bind, List.mem_filterMap, List.mem_filter,
    Option.map_eq_some', beq_iff_eq]
  constructor
  · rintro ⟨b, hb, p, ⟨hp, hfk⟩, t, ht, heq⟩
    injection heq with h1 heq2
    injection heq2 with h2 h3
    subst h1
    subst h2
    subst h3
    exact ⟨b, hb, p, hp, hfk.symm, ht, rfl, rfl⟩
  · rintro ⟨b, hb, p, hp, hfk, ht, hid, hurl⟩
    subst hid
    subst hurl
    exact ⟨b, hb, p, ⟨hp, hfk.symm⟩, x2, ht, rfl⟩

/-- C4: on a database against which the fixed join query is
satisfiable, the extractor succeeds (with the connection closed) and
its result contains a record exactly when it arises from a
`moz_bookmarks` row with a non-null title joined to the `moz_places`
row its `fk` points at; in particular no record comes from a row with
a null title. -/
theorem C4_extractor_join_rows (db : PlacesDB)
    (h : db.queryError = none) :
    ∃ rows : List Bookmark,
      get_firefox_bookmarks_from_sqlite db = (.ok rows, true) ∧
      ∀ r : Bookmark, r ∈ rows ↔
        ∃ b ∈ db.mozBookmarks, ∃ p ∈ db.mozPlaces,
          b.fk = p.id ∧ b.title = some r.title ∧
          b.id = r.id ∧ p.url = r.url := by
  refine ⟨(queryRows db).map (fun x => ⟨x.1, x.2.1, x.2.2⟩), ?_, ?_⟩
  · unfold get_firefox_bookmarks_from_sqlite
    rw [h]
  · intro r
    rw [List.mem_map]
    constructor
    · rintro ⟨x, hx, rfl⟩
      exact mem_queryRows.mp hx
    · intro hex
      obtain ⟨ri, rt, ru⟩ := r
      obtain ⟨b, hb, p, hp, hfk, ht, hid, hurl⟩ := hex
      subst hid
      subst hurl
      exact ⟨(b.id, rt, p.url),
        mem_queryRows.mpr ⟨b, hb, p, hp, hfk, ht, rfl, rfl⟩, rfl⟩

def rowBW1 : MozBookmarkRow := ⟨1, 10, some ("Rust Book")⟩
def rowBW2 : MozBookmarkRow := ⟨2, 11, none⟩
def rowPW1 : MozPlaceRow := ⟨10, "https://doc.rust-lang.org/book/"⟩
def rowPW2 : MozPlaceRow := ⟨11, "https://untitled.example.org/"⟩
def dbW : PlacesDB := ⟨none, [rowBW1, rowBW2], [rowPW1, rowPW2]⟩

/-- Witness for C4 on a concrete database containing one titled and
one untitled bookmark row. -/
theorem C4_witness :
    ∃ rows : List Bookmark,
      get_firefox_bookmarks_from_sqlite dbW = (.ok rows, true) ∧
      ∀ r : Bookmark, r ∈ rows ↔
        ∃ b ∈ dbW.mozBookmarks, ∃ p ∈ dbW.mozPlaces,
          b.fk = p.id ∧ b.title = some r.title ∧
          b.id = r.id ∧ p.url = r.url :=
  C4_extractor_join_rows dbW rfl

def dbCorruptW : PlacesDB := ⟨some SqliteError.databaseError, [], []⟩

/-- C8 counterexample: a corrupted database file — the claim's own
example of an unsatisfiable query — fails with
`sqlite3.DatabaseError`, which the `except sqlite3.OperationalError`
clause does not catch: the extractor lets it propagate instead of
raising a RuntimeError-class error, refuting the claimed iff. -/
theorem C8_counterexample :
    dbCorruptW.queryError ≠ none ∧
    get_firefox_bookmarks_from_sqlite dbCorruptW =
      (ExtractOutcome.uncaught SqliteError.databaseError, true) ∧
    ExtractOutcome.uncaught SqliteError.databaseError ≠
      ExtractOutcome.runtimeError :=
  ⟨by decide, rfl, by decide⟩

/-- C8 amended: the extractor raises RuntimeError exactly when the
fixed join query fails with `sqlite3.OperationalError` (missing or
unexpected schema); a failure of another class, such as the
`sqlite3.DatabaseError` of a corrupted file, propagates unconverted.
On every failure no rows accompany the outcome, and the connection is
closed on every path. -/
theorem C8_amended_error_classes (db : PlacesDB) :
    ((get_firefox_bookmarks_from_sqlite db).1 =
        ExtractOutcome.runtimeError ↔
      db.queryError = some SqliteError.operationalError) ∧
    (get_firefox_bookmarks_from_sqlite db).2 = true ∧
    (db.queryError = some SqliteError.databaseError →
      get_firefox_bookmarks_from_sqlite db =
        (ExtractOutcome.uncaught SqliteError.databaseError, true)) ∧
    (∀ rows, db.queryError ≠ none →
      (get_firefox_bookmarks_from_sqlite db).1 ≠
        ExtractOutcome.ok rows) := by
  rcases hq : db.queryError with _ | e
  · unfold get_firefox_bookmarks_from_sqlite
    rw [hq]
    simp
  · rcases e with _ | _ <;>
      unfold get_firefox_bookmarks_from_sqlite <;>
        rw [hq] <;> simp

def dbOpErrW : PlacesDB := ⟨some SqliteError.operationalError, [], []⟩

/-- Witness for the amended C8 at a database whose schema lacks the
expected tables. -/
theorem C8_witness :
    ((get_firefox_bookmarks_from_sqlite dbOpErrW).1 =
        ExtractOutcome.runtimeError ↔
      dbOpErrW.queryError = some SqliteError.operationalError) ∧
    (get_firefox_bookmarks_from_sqlite dbOpErrW).2 = true ∧
    (get_firefox_bookmarks_from_sqlite dbOpErrW).1 ≠
      ExtractOutcome.ok [] :=
  ⟨(C8_amended_error_classes dbOpErrW).1,
    (C8_amended_error_classes dbOpErrW).2.1,
    (C8_amended_error_classes dbOpErrW).2.2.2 [] (by decide)⟩

end FFBS
